import Mathlib

/-!
Verification of the pdftoool repository: a browser PDF cropping and
shipping-label splitting tool.  The development embeds, over the rationals,
the coordinate-mapping functions of the PDF service (cropPDF, splitEcomLabel,
splitEcomLabelFixed), the crop-box interaction handlers of the PDFCropper
component (handleMouseDown / handleMouseMove / handleMouseUp), and the
orchestration handlers of App (handleSmartCrop, handlePortalAutoSplit),
and proves the stated coordinate and state-machine properties.
-/

/-- A rectangle in PDF point space, as handed to pdf-lib's
setCropBox / setMediaBox (x, y, width, height with a bottom-left origin). -/
structure PdfRect where
  x : ℚ
  y : ℚ
  w : ℚ
  h : ℚ
  deriving Repr, DecidableEq

/-- A PDF page as pdf-lib exposes it to this code: getSize reads the media
box dimensions, setCropBox / setMediaBox overwrite the respective boxes. -/
structure Page where
  cropBox : PdfRect
  mediaBox : PdfRect
  deriving Repr, DecidableEq

/-- page.getSize().width -/
def Page.width (p : Page) : ℚ := p.mediaBox.w

/-- page.getSize().height -/
def Page.height (p : Page) : ℚ := p.mediaBox.h

/-- page.setCropBox(r) followed by page.setMediaBox(r), as every call site in
the PDF service performs the two mutations together with the same rectangle. -/
def Page.setBoxes (_p : Page) (r : PdfRect) : Page :=
  { cropBox := r, mediaBox := r }

/-- CropBox from types.ts: a box in logical (unzoomed, top-left-origin)
page units. -/
structure CropBox where
  x : ℚ
  y : ℚ
  width : ℚ
  height : ℚ
  deriving Repr, DecidableEq

/-- The targetPages argument of cropPDF: apply to all pages or only to the
current page. -/
inductive TargetPages
  | all
  | current
  deriving Repr, DecidableEq

/-- Body of the for-loop in cropPDF: read the page's own size, compute the
scale factors from the rendered viewport size, map the logical box into PDF
point space (flipping the y origin from top-left to bottom-left) and set the
result as both the crop box and the media box. -/
def cropPdfPage (cropBox : CropBox) (viewWidth viewHeight : ℚ) (page : Page) :
    Page :=
  let width := page.width
  let height := page.height
  let scaleX := width / viewWidth
  let scaleY := height / viewHeight
  let pdfX := cropBox.x * scaleX
  let pdfY := height - cropBox.y * scaleY - cropBox.height * scaleY
  let pdfW := cropBox.width * scaleX
  let pdfH := cropBox.height * scaleY
  page.setBoxes ⟨pdfX, pdfY, pdfW, pdfH⟩

/-- applyIndices in cropPDF: every index for scope all, the single current
index for scope current. -/
def applyIndices (numPages : ℕ) : TargetPages → ℕ → List ℕ
  | TargetPages.all, _ => List.range numPages
  | TargetPages.current, currentPageIndex => [currentPageIndex]

/-- One iteration of cropPDF's for-loop: mutate pages[idx] in place. -/
def cropStep (cropBox : CropBox) (viewWidth viewHeight : ℚ)
    (pages : List Page) (idx : ℕ) : List Page :=
  match pages[idx]? with
  | some p => pages.set idx (cropPdfPage cropBox viewWidth viewHeight p)
  | none => pages

/-- cropPDF from the PDF service: map the logical cropBox onto each target
page using that page's own point size against the rendered viewport size. -/
def cropPDF (doc : List Page) (cropBox : CropBox) (targetPages : TargetPages)
    (currentPageIndex : ℕ) (viewWidth viewHeight : ℚ) : List Page :=
  (applyIndices doc.length targetPages currentPageIndex).foldl
    (cropStep cropBox viewWidth viewHeight) doc

/-- splitEcomLabel from the PDF service: on an empty document return it
re-saved unchanged; otherwise crop two copies of the first page at
splitY = height * (1 - anchorYPercent / 100) — the top band (shipping label)
then the bottom band (tax invoice) — and append the remaining pages. -/
def splitEcomLabel (doc : List Page) (anchorYPercent : ℚ) : List Page :=
  match doc with
  | [] => []
  | page :: rest =>
    let width := page.width
    let height := page.height
    let splitY := height * (1 - anchorYPercent / 100)
    let labelPage := page.setBoxes ⟨0, splitY, width, height - splitY⟩
    let invoicePage := page.setBoxes ⟨0, 0, width, splitY⟩
    labelPage :: invoicePage :: rest

/-- The config argument of splitEcomLabelFixed. -/
structure SplitSize where
  width : ℚ
  height : ℚ
  deriving Repr, DecidableEq

/-- Fixed label/invoice dimensions plus the reference viewport width. -/
structure FixedSplitConfig where
  label : SplitSize
  invoice : SplitSize
  viewWidth : ℚ
  deriving Repr, DecidableEq

/-- splitEcomLabelFixed from the PDF service: scale the fixed label and
invoice heights by width / config.viewWidth, crop the label band at the top
of the first page and the invoice band beneath it (bottom clamped at 0), and
append the remaining pages. -/
def splitEcomLabelFixed (doc : List Page) (config : FixedSplitConfig) :
    List Page :=
  match doc with
  | [] => []
  | page :: rest =>
    let width := page.width
    let height := page.height
    let scale := width / config.viewWidth
    let labelH := config.label.height * scale
    let invoiceH := config.invoice.height * scale
    let labelPage := page.setBoxes ⟨0, height - labelH, width, labelH⟩
    let invoiceBottom := max 0 (height - labelH - invoiceH)
    let invoicePage := page.setBoxes ⟨0, invoiceBottom, width, invoiceH⟩
    labelPage :: invoicePage :: rest

/-- The Meesho fixed dimensions passed by App's handlePortalAutoSplit:
label 790x490, invoice 790x360, viewWidth 800. -/
def meeshoConfig : FixedSplitConfig :=
  { label := ⟨790, 490⟩, invoice := ⟨790, 360⟩, viewWidth := 800 }

/-- The spec's logical-to-PDF mapping, stated from the spec's own words for
comparison with cropPDF: scaleX = pageWidthPt / viewportWidthPx,
scaleY = pageHeightPt / viewportHeightPx, pdfX = box.x * scaleX,
pdfY = pageHeightPt - box.y * scaleY - box.height * scaleY,
pdfW = box.width * scaleX, pdfH = box.height * scaleY. -/
def specMappedRect (box : CropBox) (viewWidth viewHeight : ℚ) (page : Page) :
    PdfRect :=
  ⟨box.x * (page.width / viewWidth),
   page.height - box.y * (page.height / viewHeight)
     - box.height * (page.height / viewHeight),
   box.width * (page.width / viewWidth),
   box.height * (page.height / viewHeight)⟩

/-- The dragType state of PDFCropper. -/
inductive DragType
  | move
  | resize
  | create
  deriving Repr, DecidableEq

/-- The resizeHandle state of PDFCropper: one of the eight compass handles. -/
inductive ResizeHandle
  | nw
  | ne
  | sw
  | se
  | w
  | e
  | n
  | s
  deriving Repr, DecidableEq

/-- resizeHandle?.includes('e') -/
def handleIncludesE : Option ResizeHandle → Bool
  | some ResizeHandle.ne => true
  | some ResizeHandle.se => true
  | some ResizeHandle.e => true
  | _ => false

/-- resizeHandle?.includes('s') -/
def handleIncludesS : Option ResizeHandle → Bool
  | some ResizeHandle.sw => true
  | some ResizeHandle.se => true
  | some ResizeHandle.s => true
  | _ => false

/-- resizeHandle?.includes('w') -/
def handleIncludesW : Option ResizeHandle → Bool
  | some ResizeHandle.nw => true
  | some ResizeHandle.sw => true
  | some ResizeHandle.w => true
  | _ => false

/-- resizeHandle?.includes('n') -/
def handleIncludesN : Option ResizeHandle → Bool
  | some ResizeHandle.nw => true
  | some ResizeHandle.ne => true
  | some ResizeHandle.n => true
  | _ => false

/-- The startPos ref of PDFCropper, snapshotted on pointer-down. -/
structure StartPos where
  screenX : ℚ
  screenY : ℚ
  logicalStartX : ℚ
  logicalStartY : ℚ
  boxX : ℚ
  boxY : ℚ
  boxW : ℚ
  boxH : ℚ
  deriving Repr, DecidableEq

/-- PDFCropper.handleMouseMove while a drag is active: given the component
props (width, height, zoom), the drag state, the current box, the startPos
snapshot, the container origin (rectLeft, rectTop) and the pointer position
(clientX, clientY), the nextBox emitted through setBox / onCropChange
(none when the handler emits nothing, i.e. move or resize with no box). -/
def handleMouseMove (width height zoom : ℚ) (dragType : DragType)
    (resizeHandle : Option ResizeHandle) (box : Option CropBox)
    (start : StartPos) (rectLeft rectTop clientX clientY : ℚ) :
    Option CropBox :=
  let currentLogicalX := (clientX - rectLeft) / zoom
  let currentLogicalY := (clientY - rectTop) / zoom
  let boundedX := max 0 (min width currentLogicalX)
  let boundedY := max 0 (min height currentLogicalY)
  let dx := (clientX - start.screenX) / zoom
  let dy := (clientY - start.screenY) / zoom
  match dragType, box with
  | DragType.create, _ =>
      some { x := min start.logicalStartX boundedX,
             y := min start.logicalStartY boundedY,
             width := |boundedX - start.logicalStartX|,
             height := |boundedY - start.logicalStartY| }
  | DragType.move, some b =>
      some { b with
             x := max 0 (min (width - b.width) (start.boxX + dx)),
             y := max 0 (min (height - b.height) (start.boxY + dy)) }
  | DragType.resize, some b =>
      let next0 := b
      let next1 :=
        if handleIncludesE resizeHandle then
          { next0 with width := max 5 (min (width - b.x) (start.boxW + dx)) }
        else next0
      let next2 :=
        if handleIncludesS resizeHandle then
          { next1 with height := max 5 (min (height - b.y) (start.boxH + dy)) }
        else next1
      let next3 :=
        if handleIncludesW resizeHandle then
          let delta := min (start.boxW - 5) dx
          { next2 with x := max 0 (start.boxX + delta),
                       width := start.boxW - delta }
        else next2
      let next4 :=
        if handleIncludesN resizeHandle then
          let delta := min (start.boxH - 5) dy
          { next3 with y := max 0 (start.boxH + delta),
                       height := start.boxH - delta }
        else next3
      some next4
  | DragType.move, none => none
  | DragType.resize, none => none

/-- PDFCropper.handleMouseUp: in a create drag a box below the 5x5 minimum is
discarded (set to null); every other pointer-up keeps the box. -/
def handleMouseUp (dragType : Option DragType) (box : Option CropBox) :
    Option CropBox :=
  match dragType, box with
  | some DragType.create, some b =>
      if b.width < 5 ∨ b.height < 5 then none else some b
  | _, _ => box

/-- The stable interaction states of the spec's state machine. -/
inductive UiState
  | idle
  | selected
  deriving Repr, DecidableEq

/-- The stable state after pointer-up clears the drag session: Idle when no
box survives, Selected when one does. -/
def stateAfterUp : Option CropBox → UiState
  | none => UiState.idle
  | some _ => UiState.selected

/-- The percentage bounding box returned by detectContentBounds. -/
structure BoundsPct where
  x : ℚ
  y : ℚ
  width : ℚ
  height : ℚ
  deriving Repr, DecidableEq

/-- The outcome of an awaited external call: a parsed value, a null result,
or a thrown / rejected error. -/
inductive FetchResult (α : Type)
  | ok (a : α)
  | nullResult
  | raised
  deriving Repr, DecidableEq

/-- App.handleSmartCrop with no portal active: set isAnalyzing, await
detectContentBounds on the current page; on a value, convert the percentages
into logical units of the current page and set the crop box; on null do
nothing; on a thrown error log to the console only; always clear isAnalyzing
in the finally block.  Returns (cropBox after, isAnalyzing after, whether an
alert was shown). -/
def handleSmartCrop (pageWidth pageHeight : ℚ)
    (bounds : FetchResult BoundsPct) (cropBox : Option CropBox) :
    Option CropBox × Bool × Bool :=
  match bounds with
  | FetchResult.ok b =>
      (some { x := b.x / 100 * pageWidth,
              y := b.y / 100 * pageHeight,
              width := b.width / 100 * pageWidth,
              height := b.height / 100 * pageHeight },
       false, false)
  | FetchResult.nullResult => (cropBox, false, false)
  | FetchResult.raised => (cropBox, false, false)

/-- App.handlePortalAutoSplit on the non-Meesho path: set isAnalyzing, await
findTaxInvoiceAnchor; a falsy anchor (null, or 0 by JS truthiness) throws,
which the catch turns into an alert with the box left unchanged; a truthy
anchor splits the document and resets the crop box to null; isAnalyzing is
always cleared in the finally block.  Returns (cropBox after, isAnalyzing
after, whether an alert was shown). -/
def handlePortalAutoSplit (anchorYPercent : FetchResult ℚ)
    (cropBox : Option CropBox) : Option CropBox × Bool × Bool :=
  match anchorYPercent with
  | FetchResult.ok a => if a = 0 then (cropBox, false, true) else (none, false, false)
  | FetchResult.nullResult => (cropBox, false, true)
  | FetchResult.raised => (cropBox, false, true)

/-- The box-bounds invariant of the spec: the box lies within
[0, pageWidth] x [0, pageHeight] with nonnegative dimensions. -/
def boxInBounds (pageWidth pageHeight : ℚ) (b : CropBox) : Prop :=
  0 ≤ b.x ∧ 0 ≤ b.y ∧ 0 ≤ b.width ∧ 0 ≤ b.height ∧
  b.x + b.width ≤ pageWidth ∧ b.y + b.height ≤ pageHeight

instance (pageWidth pageHeight : ℚ) (b : CropBox) :
    Decidable (boxInBounds pageWidth pageHeight b) := by
  unfold boxInBounds; infer_instance

/-- The page of the spec's worked cropPDF example: a 595x842 pt page. -/
def c4Page : Page := { cropBox := ⟨0, 0, 595, 842⟩, mediaBox := ⟨0, 0, 595, 842⟩ }

/-- The logical box of the spec's worked cropPDF example. -/
def c4Box : CropBox := ⟨100, 50, 200, 300⟩

/-- A 595x1000 pt page for the splitEcomLabel example. -/
def c6Page : Page := { cropBox := ⟨0, 0, 595, 1000⟩, mediaBox := ⟨0, 0, 595, 1000⟩ }

/-- A 790x1000 pt page for the Meesho fixed-split example. -/
def c8Page : Page := { cropBox := ⟨0, 0, 790, 1000⟩, mediaBox := ⟨0, 0, 790, 1000⟩ }

theorem cropStep_getElem (c : CropBox) (vw vh : ℚ) (pages : List Page)
    (idx j : ℕ) :
    (cropStep c vw vh pages idx)[j]? =
      if j = idx then (pages[j]?).map (cropPdfPage c vw vh) else pages[j]? := by
  unfold cropStep
  by_cases hji : j = idx
  · subst hji
    cases h : pages[j]? with
    | none => simp [h]
    | some p =>
      have hlt : j < pages.length := by
        cases Nat.lt_or_ge j pages.length with
        | inl hl => exact hl
        | inr hr => rw [List.getElem?_eq_none hr] at h; cases h
      simp [h, List.getElem?_set, hlt]
  · cases h : pages[idx]? with
    | none => simp [hji]
    | some p => simp [List.getElem?_set, Ne.symm hji, hji]

theorem foldl_cropStep_getElem (c : CropBox) (vw vh : ℚ) :
    ∀ (l : List ℕ), l.Nodup → ∀ (pages : List Page) (j : ℕ),
      (l.foldl (cropStep c vw vh) pages)[j]? =
        if j ∈ l then (pages[j]?).map (cropPdfPage c vw vh) else pages[j]?
  | [], _, pages, j => by simp
  | a :: t, h, pages, j => by
    have ha : a ∉ t := (List.nodup_cons.mp h).1
    have ht : t.Nodup := (List.nodup_cons.mp h).2
    rw [List.foldl_cons, foldl_cropStep_getElem c vw vh t ht, cropStep_getElem]
    by_cases hjt : j ∈ t
    · have hja : j ≠ a := fun hh => ha (hh ▸ hjt)
      simp [hjt, hja, List.mem_cons]
    · by_cases hja : j = a
      · subst hja
        simp [hjt, List.mem_cons]
      · simp [hjt, hja, List.mem_cons]

theorem cropPDF_getElem_all (doc : List Page) (c : CropBox) (i : ℕ)
    (vw vh : ℚ) (j : ℕ) :
    (cropPDF doc c TargetPages.all i vw vh)[j]? =
      (doc[j]?).map (cropPdfPage c vw vh) := by
  unfold cropPDF applyIndices
  rw [foldl_cropStep_getElem c vw vh _ (List.nodup_range doc.length)]
  by_cases hj : j < doc.length
  · simp [List.mem_range, hj]
  · rw [if_neg (by simpa [List.mem_range] using hj),
      List.getElem?_eq_none (Nat.le_of_not_lt hj)]
    rfl

theorem cropPDF_getElem_current (doc : List Page) (c : CropBox) (i : ℕ)
    (vw vh : ℚ) (j : ℕ) :
    (cropPDF doc c TargetPages.current i vw vh)[j]? =
      if j = i then (doc[j]?).map (cropPdfPage c vw vh) else doc[j]? := by
  unfold cropPDF applyIndices
  rw [List.foldl_cons, List.foldl_nil, cropStep_getElem]

/-- C1: for every crop box and every target page, cropPDF maps the logical
(top-left-origin) box into PDF point space with scaleX = pageWidthPt / viewW
and scaleY = pageHeightPt / viewH, producing pdfX = box.x * scaleX,
pdfY = pageHeightPt - box.y * scaleY - box.height * scaleY,
pdfW = box.width * scaleX, pdfH = box.height * scaleY, set as both boxes. -/
theorem c1_cropPDF_maps_logical_box (doc : List Page) (c : CropBox)
    (scope : TargetPages) (i j : ℕ) (vw vh : ℚ)
    (hj : j < doc.length) (hmem : j ∈ applyIndices doc.length scope i) :
    (cropPDF doc c scope i vw vh)[j]? =
      some (Page.setBoxes doc[j]
        ⟨c.x * (doc[j].width / vw),
         doc[j].height - c.y * (doc[j].height / vh)
           - c.height * (doc[j].height / vh),
         c.width * (doc[j].width / vw),
         c.height * (doc[j].height / vh)⟩) := by
  have hget : doc[j]? = some doc[j] := List.getElem?_eq_getElem hj
  cases scope with
  | all =>
    rw [cropPDF_getElem_all, hget]
    rfl
  | current =>
    have hij : j = i := by simpa [applyIndices] using hmem
    rw [cropPDF_getElem_current, if_pos hij, hget]
    rfl

theorem c1_witness :
    (0 < [c4Page].length
      ∧ 0 ∈ applyIndices [c4Page].length TargetPages.current 0)
    ∧ (cropPDF [c4Page] c4Box TargetPages.current 0 800 1000)[0]? =
        some (Page.setBoxes c4Page
          ⟨c4Box.x * (c4Page.width / 800),
           c4Page.height - c4Box.y * (c4Page.height / 1000)
             - c4Box.height * (c4Page.height / 1000),
           c4Box.width * (c4Page.width / 800),
           c4Box.height * (c4Page.height / 1000)⟩) :=
  ⟨⟨by decide, by decide⟩,
   c1_cropPDF_maps_logical_box [c4Page] c4Box TargetPages.current 0 0 800 1000
     (by decide) (by decide)⟩

/-- C4 counterexample: on a 800x1000 px viewport, a 595x842 pt page and the
logical box (100, 50, 200, 300), cropPDF does NOT produce the rectangle
x = 74.375, y = 491.95, w = 148.75, h = 252.6 claimed by the spec. -/
theorem c4_counterexample :
    ¬ ((cropPDF [c4Page] c4Box TargetPages.all 0 800 1000)[0]? =
        some { cropBox := ⟨74.375, 491.95, 148.75, 252.6⟩,
               mediaBox := ⟨74.375, 491.95, 148.75, 252.6⟩ }) := by
  rw [cropPDF_getElem_all]
  unfold c4Page c4Box cropPdfPage Page.setBoxes
  simp only [List.getElem?_cons_zero, Option.map_some, Option.some.injEq,
    Page.mk.injEq, PdfRect.mk.injEq, Page.width, Page.height]
  norm_num

/-- C4 amended: on that instance cropPDF produces x = 74.375, y = 547.3
(which is 842 - 50 * 0.842 - 300 * 0.842), w = 148.75, h = 252.6. -/
theorem c4_cropPDF_worked_example :
    (cropPDF [c4Page] c4Box TargetPages.all 0 800 1000)[0]? =
      some { cropBox := ⟨74.375, 547.3, 148.75, 252.6⟩,
             mediaBox := ⟨74.375, 547.3, 148.75, 252.6⟩ } := by
  rw [cropPDF_getElem_all]
  unfold c4Page c4Box cropPdfPage Page.setBoxes
  simp only [List.getElem?_cons_zero, Option.map_some, Option.some.injEq,
    Page.mk.injEq, PdfRect.mk.injEq, Page.width, Page.height]
  norm_num

/-- C7: with scope all, cropPDF sets the mapped rectangle (computed from each
page's own point size) as both the crop box and the media box of every page;
with scope current it mutates only the page at currentPageIndex and leaves
every other page unchanged. -/
theorem c7_crop_scope_effect (doc : List Page) (c : CropBox) (i : ℕ)
    (vw vh : ℚ) (hi : i < doc.length) :
    (∀ j, (hj : j < doc.length) →
        (cropPDF doc c TargetPages.all i vw vh)[j]? =
          some { cropBox := specMappedRect c vw vh doc[j],
                 mediaBox := specMappedRect c vw vh doc[j] })
    ∧ (cropPDF doc c TargetPages.current i vw vh)[i]? =
        some { cropBox := specMappedRect c vw vh doc[i],
               mediaBox := specMappedRect c vw vh doc[i] }
    ∧ ∀ j, j ≠ i → (cropPDF doc c TargetPages.current i vw vh)[j]? = doc[j]? := by
  refine ⟨?_, ?_, ?_⟩
  · intro j hj
    rw [cropPDF_getElem_all, List.getElem?_eq_getElem hj]
    rfl
  · rw [cropPDF_getElem_current, if_pos rfl, List.getElem?_eq_getElem hi]
    rfl
  · intro j hji
    rw [cropPDF_getElem_current, if_neg hji]

theorem c7_witness :
    0 < ([c4Page, c6Page] : List Page).length
    ∧ (cropPDF [c4Page, c6Page] c4Box TargetPages.current 0 800 1000)[1]? =
        ([c4Page, c6Page] : List Page)[1]? :=
  ⟨by decide,
   (c7_crop_scope_effect [c4Page, c6Page] c4Box 0 800 1000 (by decide)).2.2 1
     (by decide)⟩

/-- C6: on every single-page document of height H, splitEcomLabel with anchor
percentage p produces a two-page document whose first page is cropped to the
top band y in [H * (1 - p / 100), H] and whose second page is cropped to the
bottom band y in [0, H * (1 - p / 100)]; in particular with p = 60 on a
1000 pt tall page, page 1 covers y in [400, 1000] and page 2 covers
y in [0, 400]. -/
theorem c6_splitEcomLabel_bands (page : Page) (p : ℚ) :
    (∃ lab inv, splitEcomLabel [page] p = [lab, inv]
      ∧ lab.cropBox = lab.mediaBox ∧ inv.cropBox = inv.mediaBox
      ∧ lab.cropBox.x = 0 ∧ lab.cropBox.w = page.width
      ∧ lab.cropBox.y = page.height * (1 - p / 100)
      ∧ lab.cropBox.y + lab.cropBox.h = page.height
      ∧ inv.cropBox.x = 0 ∧ inv.cropBox.w = page.width
      ∧ inv.cropBox.y = 0
      ∧ inv.cropBox.y + inv.cropBox.h = page.height * (1 - p / 100))
    ∧ (splitEcomLabel [c6Page] 60).map Page.cropBox =
        [⟨0, 400, 595, 600⟩, ⟨0, 0, 595, 400⟩] := by
  constructor
  · refine ⟨_, _, rfl, rfl, rfl, rfl, rfl, rfl, ?_, rfl, rfl, rfl, ?_⟩
    · show page.height * (1 - p / 100)
          + (page.height - page.height * (1 - p / 100)) = page.height
      ring
    · show 0 + page.height * (1 - p / 100) = page.height * (1 - p / 100)
      ring
  · unfold splitEcomLabel c6Page Page.setBoxes
    simp only [List.map_cons, List.map_nil, Page.width, Page.height,
      List.cons.injEq, PdfRect.mk.injEq]
    norm_num

/-- C8 counterexample: with the Meesho config (viewWidth 800) on a document
whose first page is 790 pt wide, the label band height is not 484.875 pt
(490 * 0.9875 is 483.875, not 484.875 as the spec computes). -/
theorem c8_counterexample :
    ¬ ((splitEcomLabelFixed [c8Page] meeshoConfig).map
        (fun pg => pg.cropBox.h) = [(484.875 : ℚ), 355.5]) := by
  unfold splitEcomLabelFixed c8Page meeshoConfig Page.setBoxes
  simp only [List.map_cons, List.map_nil, Page.width, Page.height,
    List.cons.injEq]
  norm_num

/-- C8 amended: for the Meesho fixed split with viewWidth 800 on a document
whose first page is 790 pt wide (and tall enough to hold both bands), the
scale factor is 790 / 800 = 0.9875, the first output page is a top band of
height 490 * 0.9875 = 483.875 pt, the second output page is a
360 * 0.9875 = 355.5 pt band directly beneath it, and all original pages
after the first are appended unchanged after the two split pages. -/
theorem c8_meesho_fixed_split (page : Page) (rest : List Page)
    (hw : page.width = 790) (hh : (839.375 : ℚ) ≤ page.height) :
    splitEcomLabelFixed (page :: rest) meeshoConfig =
      page.setBoxes ⟨0, page.height - 483.875, page.width, 483.875⟩
        :: page.setBoxes ⟨0, (page.height - 483.875) - 355.5, page.width, 355.5⟩
        :: rest := by
  have hlab : (490 : ℚ) * (page.width / 800) = 483.875 := by rw [hw]; norm_num
  have hinv : (360 : ℚ) * (page.width / 800) = 355.5 := by rw [hw]; norm_num
  unfold splitEcomLabelFixed meeshoConfig Page.setBoxes
  simp only [hlab, hinv]
  have hmax : max 0 (page.height - 483.875 - 355.5)
      = (page.height - 483.875) - 355.5 := by
    rw [max_eq_right]
    linarith
  rw [hmax]

theorem c8_witness :
    ((c8Page.width = 790) ∧ (839.375 : ℚ) ≤ c8Page.height)
    ∧ splitEcomLabelFixed [c8Page] meeshoConfig =
        c8Page.setBoxes ⟨0, c8Page.height - 483.875, c8Page.width, 483.875⟩
          :: c8Page.setBoxes
              ⟨0, (c8Page.height - 483.875) - 355.5, c8Page.width, 355.5⟩
          :: [] :=
  ⟨⟨by norm_num [c8Page, Page.width], by norm_num [c8Page, Page.height]⟩,
   c8_meesho_fixed_split c8Page [] (by norm_num [c8Page, Page.width])
     (by norm_num [c8Page, Page.height])⟩

/-- C10: on a document with zero pages, splitEcomLabel (for any anchor
percentage) and splitEcomLabelFixed (for any config) return the original
document re-saved, with no pages added, removed, or cropped. -/
theorem c10_empty_document_passthrough (doc : List Page) (anchorYPercent : ℚ)
    (config : FixedSplitConfig) (h : doc.length = 0) :
    splitEcomLabel doc anchorYPercent = doc
    ∧ splitEcomLabelFixed doc config = doc := by
  cases doc with
  | nil => exact ⟨rfl, rfl⟩
  | cons a t => simp at h

theorem c10_witness :
    ([] : List Page).length = 0
    ∧ splitEcomLabel [] 60 = ([] : List Page)
    ∧ splitEcomLabelFixed [] meeshoConfig = ([] : List Page) :=
  ⟨rfl, (c10_empty_document_passthrough [] 60 meeshoConfig rfl).1,
   (c10_empty_document_passthrough [] 60 meeshoConfig rfl).2⟩

/-- C2: evaluation at a failing input.  Dragging the single-edge north handle
by dy = 5 on the box (10, 50, 40, 20) yields the box (10, 25, 40, 15): the
handler computes the new y from the snapshot height boxH = 20 instead of the
snapshot position boxY = 50, so the south edge moves from 50 + 20 = 70 to
25 + 15 = 40 instead of staying fixed as the claim requires. -/
theorem c2_n_handle_moves_south_edge :
    handleMouseMove 1000 1000 1 DragType.resize (some ResizeHandle.n)
        (some ⟨10, 50, 40, 20⟩) ⟨0, 0, 0, 0, 10, 50, 40, 20⟩ 0 0 0 5
      = some ⟨10, 25, 40, 15⟩
    ∧ ((25 : ℚ) + 15 ≠ 50 + 20) := by
  constructor
  · unfold handleMouseMove handleIncludesE handleIncludesS handleIncludesW
      handleIncludesN
    simp only [CropBox.mk.injEq]
    norm_num
  · norm_num

/-- C3 counterexample: during a resize drag on the west handle with
dx = -95 on the box (10, 10, 20, 20) of a 100 x 100 page, the emitted box is
(0, 10, 115, 20): its x is clamped at 0 but its width is not compensated, so
x + width = 115 > pageWidth = 100, violating the claimed invariant. -/
theorem c3_counterexample_resize_w_escapes :
    handleMouseMove 100 100 1 DragType.resize (some ResizeHandle.w)
        (some ⟨10, 10, 20, 20⟩) ⟨0, 0, 0, 0, 10, 10, 20, 20⟩ 0 0 (-95) 0
      = some ⟨0, 10, 115, 20⟩
    ∧ ¬ ((0 : ℚ) + 115 ≤ 100) := by
  constructor
  · unfold handleMouseMove handleIncludesE handleIncludesS handleIncludesW
      handleIncludesN
    simp only [CropBox.mk.injEq]
    norm_num
  · norm_num

/-- C3 amended: the emitted box stays within
[0, pageWidth] x [0, pageHeight] with nonnegative dimensions for create
drags (whose logical start point lies on the page) and for move drags (whose
box dimensions fit the page); resize drags can escape the page, as the
counterexample shows. -/
theorem c3_create_move_stay_in_bounds (width height zoom : ℚ)
    (resizeHandle : Option ResizeHandle) (box : Option CropBox) (b0 : CropBox)
    (start : StartPos) (rectLeft rectTop clientX clientY : ℚ)
    (hW : 0 ≤ width) (hH : 0 ≤ height)
    (hsx0 : 0 ≤ start.logicalStartX) (hsxW : start.logicalStartX ≤ width)
    (hsy0 : 0 ≤ start.logicalStartY) (hsyH : start.logicalStartY ≤ height)
    (hbw0 : 0 ≤ b0.width) (hbwW : b0.width ≤ width)
    (hbh0 : 0 ≤ b0.height) (hbhH : b0.height ≤ height) :
    (handleMouseMove width height zoom DragType.create resizeHandle box
        start rectLeft rectTop clientX clientY).elim False
      (boxInBounds width height)
    ∧ (handleMouseMove width height zoom DragType.move resizeHandle (some b0)
        start rectLeft rectTop clientX clientY).elim False
      (boxInBounds width height) := by
  have hbX0 : (0 : ℚ) ≤ max 0 (min width ((clientX - rectLeft) / zoom)) :=
    le_max_left _ _
  have hbXW : max 0 (min width ((clientX - rectLeft) / zoom)) ≤ width :=
    max_le hW (min_le_left _ _)
  have hbY0 : (0 : ℚ) ≤ max 0 (min height ((clientY - rectTop) / zoom)) :=
    le_max_left _ _
  have hbYH : max 0 (min height ((clientY - rectTop) / zoom)) ≤ height :=
    max_le hH (min_le_left _ _)
  constructor
  · cases box with
    | none =>
      show boxInBounds width height
        ⟨min start.logicalStartX (max 0 (min width ((clientX - rectLeft) / zoom))),
         min start.logicalStartY (max 0 (min height ((clientY - rectTop) / zoom))),
         |max 0 (min width ((clientX - rectLeft) / zoom)) - start.logicalStartX|,
         |max 0 (min height ((clientY - rectTop) / zoom)) - start.logicalStartY|⟩
      unfold boxInBounds
      refine ⟨le_min hsx0 hbX0, le_min hsy0 hbY0, abs_nonneg _, abs_nonneg _,
        ?_, ?_⟩
      · have habs := max_sub_min_eq_abs start.logicalStartX
          (max 0 (min width ((clientX - rectLeft) / zoom)))
        have hmx : max start.logicalStartX
            (max 0 (min width ((clientX - rectLeft) / zoom))) ≤ width :=
          max_le hsxW hbXW
        linarith
      · have habs := max_sub_min_eq_abs start.logicalStartY
          (max 0 (min height ((clientY - rectTop) / zoom)))
        have hmy : max start.logicalStartY
            (max 0 (min height ((clientY - rectTop) / zoom))) ≤ height :=
          max_le hsyH hbYH
        linarith
    | some b =>
      show boxInBounds width height
        ⟨min start.logicalStartX (max 0 (min width ((clientX - rectLeft) / zoom))),
         min start.logicalStartY (max 0 (min height ((clientY - rectTop) / zoom))),
         |max 0 (min width ((clientX - rectLeft) / zoom)) - start.logicalStartX|,
         |max 0 (min height ((clientY - rectTop) / zoom)) - start.logicalStartY|⟩
      unfold boxInBounds
      refine ⟨le_min hsx0 hbX0, le_min hsy0 hbY0, abs_nonneg _, abs_nonneg _,
        ?_, ?_⟩
      · have habs := max_sub_min_eq_abs start.logicalStartX
          (max 0 (min width ((clientX - rectLeft) / zoom)))
        have hmx : max start.logicalStartX
            (max 0 (min width ((clientX - rectLeft) / zoom))) ≤ width :=
          max_le hsxW hbXW
        linarith
      · have habs := max_sub_min_eq_abs start.logicalStartY
          (max 0 (min height ((clientY - rectTop) / zoom)))
        have hmy : max start.logicalStartY
            (max 0 (min height ((clientY - rectTop) / zoom))) ≤ height :=
          max_le hsyH hbYH
        linarith
  · show boxInBounds width height
      ⟨max 0 (min (width - b0.width) (start.boxX + (clientX - start.screenX) / zoom)),
       max 0 (min (height - b0.height) (start.boxY + (clientY - start.screenY) / zoom)),
       b0.width, b0.height⟩
    unfold boxInBounds
    have hxw : max 0 (min (width - b0.width)
        (start.boxX + (clientX - start.screenX) / zoom)) ≤ width - b0.width :=
      max_le (by linarith) (min_le_left _ _)
    have hyh : max 0 (min (height - b0.height)
        (start.boxY + (clientY - start.screenY) / zoom)) ≤ height - b0.height :=
      max_le (by linarith) (min_le_left _ _)
    exact ⟨le_max_left _ _, le_max_left _ _, hbw0, hbh0,
      by linarith, by linarith⟩

theorem c3_witness :
    ((0 : ℚ) ≤ 100 ∧ (0 : ℚ) ≤ 100
      ∧ (0 : ℚ) ≤ 10 ∧ (10 : ℚ) ≤ 100 ∧ (0 : ℚ) ≤ 10 ∧ (10 : ℚ) ≤ 100
      ∧ (0 : ℚ) ≤ 30 ∧ (30 : ℚ) ≤ 100 ∧ (0 : ℚ) ≤ 30 ∧ (30 : ℚ) ≤ 100)
    ∧ ((handleMouseMove 100 100 1 DragType.create none none
          ⟨0, 0, 10, 10, 20, 20, 30, 30⟩ 0 0 50 50).elim False
        (boxInBounds 100 100)
      ∧ (handleMouseMove 100 100 1 DragType.move none (some ⟨20, 20, 30, 30⟩)
          ⟨0, 0, 10, 10, 20, 20, 30, 30⟩ 0 0 50 50).elim False
        (boxInBounds 100 100)) :=
  ⟨⟨by norm_num, by norm_num, by norm_num, by norm_num, by norm_num,
    by norm_num, by norm_num, by norm_num, by norm_num, by norm_num⟩,
   c3_create_move_stay_in_bounds 100 100 1 none none ⟨20, 20, 30, 30⟩
     ⟨0, 0, 10, 10, 20, 20, 30, 30⟩ 0 0 50 50
     (by norm_num) (by norm_num) (by norm_num) (by norm_num) (by norm_num)
     (by norm_num) (by norm_num) (by norm_num) (by norm_num) (by norm_num)⟩

/-- C5: when a create drag ends while the box has width < 5 or height < 5,
pointer-up discards the box (the change callback receives null) and the
machine returns to Idle; otherwise the box is kept and the state becomes
Selected. -/
theorem c5_create_release_discards_small (b : CropBox) :
    ((b.width < 5 ∨ b.height < 5)
        ∧ handleMouseUp (some DragType.create) (some b) = none
        ∧ stateAfterUp (handleMouseUp (some DragType.create) (some b))
            = UiState.idle)
    ∨ (¬ (b.width < 5 ∨ b.height < 5)
        ∧ handleMouseUp (some DragType.create) (some b) = some b
        ∧ stateAfterUp (handleMouseUp (some DragType.create) (some b))
            = UiState.selected) := by
  by_cases h : b.width < 5 ∨ b.height < 5
  · exact Or.inl ⟨h, by simp [handleMouseUp, h],
      by simp [handleMouseUp, stateAfterUp, h]⟩
  · exact Or.inr ⟨h, by simp [handleMouseUp, h],
      by simp [handleMouseUp, stateAfterUp, h]⟩

/-- C9 counterexample: when detectContentBounds resolves to null in
handleSmartCrop, the crop box is left unchanged and the analyzing flag is
cleared, but NO user-visible failure is surfaced (the alert component is
false), contrary to the claim. -/
theorem c9_counterexample_silent_null_detection :
    handleSmartCrop 800 1000 FetchResult.nullResult (some ⟨1, 2, 3, 4⟩)
      = (some ⟨1, 2, 3, 4⟩, false, false) := rfl

/-- C9 amended: a null or thrown detection result leaves the crop box
unchanged and the analyzing flag is cleared on every path; a user-visible
alert is raised on the portal auto-split path (null or thrown
findTaxInvoiceAnchor), while a null detectContentBounds result in
handleSmartCrop fails silently. -/
theorem c9_detection_failure_handling (pageWidth pageHeight : ℚ)
    (cropBox : Option CropBox) :
    handleSmartCrop pageWidth pageHeight FetchResult.nullResult cropBox
        = (cropBox, false, false)
    ∧ handleSmartCrop pageWidth pageHeight FetchResult.raised cropBox
        = (cropBox, false, false)
    ∧ handlePortalAutoSplit FetchResult.nullResult cropBox
        = (cropBox, false, true)
    ∧ handlePortalAutoSplit FetchResult.raised cropBox = (cropBox, false, true)
    ∧ (∀ bounds : FetchResult BoundsPct,
        (handleSmartCrop pageWidth pageHeight bounds cropBox).2.1 = false)
    ∧ (∀ anchor : FetchResult ℚ,
        (handlePortalAutoSplit anchor cropBox).2.1 = false) := by
  refine ⟨rfl, rfl, rfl, rfl, ?_, ?_⟩
  · intro bounds
    cases bounds <;> rfl
  · intro anchor
    cases anchor with
    | ok a => by_cases hz : a = 0 <;> simp [handlePortalAutoSplit, hz]
    | nullResult => rfl
    | raised => rfl
